import Mathlib

/-!
# Verification of the `mylog` logging library core

Shallow embedding of `src/mylog/__init__.py` (version 0.4.0): the `Level`
enumeration and its coercion function `to_level`, the `Logger` decision logic
(`_log`, `_actually_log`, `is_enabled_for`, `_inherit` / `get_child`), the
message formatting (`level_to_str`, `format_msg`), and the `ChangeThreshold`
scoped helper.

Python's in-place object mutation is modelled by explicit state passing.
Loggers live in a `World`: list objects (each logger's event history and its
handler list) are stored in heaps indexed by reference ids, so that Python's
aliasing of list objects (`self.handlers = self.higher.handlers` makes parent
and child share one list) is observable in the model.  Python exceptions are
modelled with `Except String`; `warnings.warn` calls are modelled as values
appended to a warning trace.
-/

namespace Mylog

/-- `class Level(IntEnum)`: debug = 10, info = 20, warning = 30, error = 40,
critical = 50.  The aliases `warn = warning` and `fatal = critical` are not
separate members in Python (`Level.warn is Level.warning`), so they are not
separate constructors here; they appear only in the attribute table below. -/
inductive Level
  | debug
  | info
  | warning
  | error
  | critical
deriving DecidableEq, Repr, Fintype

/-- The integer value of a `Level` member (`Level.debug.value == 10`, ...). -/
def Level.val : Level → Int
  | .debug => 10
  | .info => 20
  | .warning => 30
  | .error => 40
  | .critical => 50

/-- The canonical `.name` of a `Level` member.  In Python the alias members
`warn`/`fatal` report the canonical name of their target (`"warning"`,
`"critical"`). -/
def Level.name : Level → String
  | .debug => "debug"
  | .info => "info"
  | .warning => "warning"
  | .error => "error"
  | .critical => "critical"

/-- Value lookup `Level(n)` for an integer `n`: succeeds exactly on the five
member values. -/
def Level.ofVal (n : Int) : Option Level :=
  if n = 10 then some .debug
  else if n = 20 then some .info
  else if n = 30 then some .warning
  else if n = 40 then some .error
  else if n = 50 then some .critical
  else none

/-- The member-name fragment of attribute lookup `getattr(Level, s)`.
Member names are case sensitive in Python, and the alias attributes
`warn` and `fatal` resolve to the `warning` / `critical` members.  Python
classes also expose non-member attributes (class machinery such as `mro` or
`__name__`, and everything inherited from `int`); that open-ended surface is
modelled separately by the `AttrResult` oracles below. -/
def Level.attr : String → Option Level
  | "debug" => some .debug
  | "info" => some .info
  | "warning" => some .warning
  | "error" => some .error
  | "critical" => some .critical
  | "warn" => some .warning
  | "fatal" => some .critical
  | _ => none

/-- A `Levelable` argument (`Union[Level, Stringable, int]`): the inputs the
library's level coercion is exercised with are levels, integers and strings. -/
inductive Levelable
  | lvl (l : Level)
  | int (n : Int)
  | str (s : String)
deriving DecidableEq, Repr

/-- The result type of `to_level(lvl, int_ok=True)`: a `Level` member or a
raw integer (`Union[Level, int]`). -/
inductive LevelOrInt
  | lvl (l : Level)
  | int (n : Int)
deriving DecidableEq, Repr

/-- The integer a `Union[Level, int]` value compares as (IntEnum members
compare by their integer value). -/
def LevelOrInt.val : LevelOrInt → Int
  | .lvl l => l.val
  | .int n => n

/-- View a stored `Union[Level, int]` back as a `Levelable` argument. -/
def levelableOfLoi : LevelOrInt → Levelable
  | .lvl l => .lvl l
  | .int n => .int n

/-- ASCII upper-casing of one character, as Python `str.upper()` acts on the
ASCII level names.  (Spelled out per character so that it evaluates inside
the kernel.) -/
def charUpper (c : Char) : Char :=
  if c = 'a' then 'A' else if c = 'b' then 'B' else if c = 'c' then 'C'
  else if c = 'd' then 'D' else if c = 'e' then 'E' else if c = 'f' then 'F'
  else if c = 'g' then 'G' else if c = 'h' then 'H' else if c = 'i' then 'I'
  else if c = 'j' then 'J' else if c = 'k' then 'K' else if c = 'l' then 'L'
  else if c = 'm' then 'M' else if c = 'n' then 'N' else if c = 'o' then 'O'
  else if c = 'p' then 'P' else if c = 'q' then 'Q' else if c = 'r' then 'R'
  else if c = 's' then 'S' else if c = 't' then 'T' else if c = 'u' then 'U'
  else if c = 'v' then 'V' else if c = 'w' then 'W' else if c = 'x' then 'X'
  else if c = 'y' then 'Y' else if c = 'z' then 'Z' else c

/-- Python `str.upper()` (ASCII fragment). -/
def pyUpper (s : String) : String := String.mk (s.data.map charUpper)

/-- The whitespace characters `int(str)` strips. -/
def isPyWs (c : Char) : Bool :=
  c == ' ' || c == '\t' || c == '\n' || c == '\r'

/-- Strip leading and trailing whitespace. -/
def pyTrimChars (cs : List Char) : List Char :=
  ((cs.dropWhile isPyWs).reverse.dropWhile isPyWs).reverse

/-- No two adjacent underscores (part of the PEP 515 validity check of
`int(str)`). -/
def noConsecutiveUnderscores : List Char → Bool
  | '_' :: '_' :: _ => false
  | _ :: rest => noConsecutiveUnderscores rest
  | [] => true

/-- The digit part of `int(str)`: decimal digits with PEP 515 underscore
grouping — underscores are permitted only between digits (`int("1_0") = 10`;
`"_10"`, `"10_"` and `"1__0"` all raise `ValueError`).  The grouping
underscores are ignored for the value. -/
def digitsToNat (cs : List Char) : Option Nat :=
  if cs ≠ [] ∧ cs.all (fun c => c.isDigit || c == '_')
      ∧ (cs.head?.getD '0').isDigit ∧ (cs.getLast?.getD '0').isDigit
      ∧ noConsecutiveUnderscores cs = true then
    some ((cs.filter Char.isDigit).foldl
      (fun acc c => acc * 10 + (c.toNat - 48)) 0)
  else none

/-- `int(s)` for a string: optional surrounding whitespace, optional sign,
then PEP 515 grouped decimal digits; raises `ValueError` (here: `none`)
otherwise.  (ASCII fragment: non-ASCII digits are out of scope.) -/
def pyIntOfString (s : String) : Option Int :=
  match pyTrimChars s.data with
  | '-' :: rest => (digitsToNat rest).map (fun n => -(n : Int))
  | '+' :: rest => (digitsToNat rest).map (fun n => (n : Int))
  | cs => (digitsToNat cs).map (fun n => (n : Int))

/-- `int(lvl)` for a `Levelable`: a `Level` converts to its value (it is an
`IntEnum`), an int is itself, a string is parsed. -/
def pyInt : Levelable → Option Int
  | .lvl l => some l.val
  | .int n => some n
  | .str s => pyIntOfString s

/-- `str(lvl)`, as used by the fallback branches of `to_level` and
`level_to_str`. -/
def pyStr : Levelable → String
  | .lvl l => "Level." ++ l.name
  | .int n => toString n
  | .str s => s

/-- The constructor-by-value call `Level(lvl)`: returns a `Level` argument
unchanged, looks an integer up among the member values, and raises
`ValueError` (here: `none`) for a string (no member has a string value). -/
def levelCall : Levelable → Option Level
  | .lvl l => some l
  | .int n => Level.ofVal n
  | .str _ => none

/-- `getattr(Level, str(lvl))` restricted to member names (the fragment the
Logger paths are verified against; `to_levelFull` below handles the full
attribute surface and `to_levelFull_member` proves the two agree on it).
For a `Level` argument this branch is unreachable (`Level(lvl)` already
succeeded), and for an integer its decimal string names no attribute, so the
lookup raises `AttributeError` (here: `none`). -/
def pyGetattr : Levelable → Option Level
  | .str s => Level.attr s
  | .lvl _ => none
  | .int _ => none

/-- Python `repr` of a `Levelable`, as interpolated by `f"{lvl!r}"`. -/
def pyRepr : Levelable → String
  | .lvl l => "<Level." ++ l.name ++ ": " ++ toString l.val ++ ">"
  | .int n => toString n
  | .str s => String.mk ['\x27'] ++ s ++ String.mk ['\x27']

/-- The `ValueError` message raised by `to_level` on an unrecognized input. -/
def invalidLevelMsg (lvl : Levelable) : String :=
  "Invalid level: " ++ pyRepr lvl ++ ". Must be a Level, int, or str."

/-- `to_level(lvl, int_ok)`: the try-chain
`Level(lvl)` / `Level(int(lvl))` / `getattr(Level, str(lvl))`, then, when
`int_ok`, a best-effort `int(lvl)`, and finally
`ValueError(f"Invalid level: {lvl!r}. ...")`.  This is the member-only
restriction of the chain (the `getattr` step resolves member names only);
`to_levelFull` below refines the `getattr` step to the full class-attribute
surface, and `to_levelFull_member` proves the two agree on the member-only
oracle. -/
def to_level (lvl : Levelable) (intOk : Bool) : Except String LevelOrInt :=
  match levelCall lvl with
  | some l => .ok (.lvl l)
  | none =>
    match (pyInt lvl).bind Level.ofVal with
    | some l => .ok (.lvl l)
    | none =>
      match pyGetattr lvl with
      | some l => .ok (.lvl l)
      | none =>
        match (if intOk then pyInt lvl else none) with
        | some n => .ok (.int n)
        | none => .error (invalidLevelMsg lvl)

/-- `True` exactly when one of the first two matching steps of `to_level`
succeeds: the input is a `Level`, or `Level(lvl)` / `Level(int(lvl))` finds
a member's value (including PEP 515 strings such as `"1_0"`).  The third
step — member-name lookup through `getattr` — is stated separately via the
attribute oracles, since `getattr` can also succeed on non-member class
attributes. -/
def knownLevelMatch (x : Levelable) : Bool :=
  (levelCall x).isSome || ((pyInt x).bind Level.ofVal).isSome

/-- Normalization of a raw integer with `int_ok=True`:
a member when the value matches, otherwise the integer itself. -/
def normInt (n : Int) : LevelOrInt :=
  match Level.ofVal n with
  | some l => .lvl l
  | none => .int n

/-- What `getattr(Level, s)` does for one name `s`: finds a `Level` member,
finds a non-member class attribute (class machinery such as `mro`,
`__name__`, or any method inherited from `int` — Python then returns that
object), or raises `AttributeError`. -/
inductive AttrResult
  | member (l : Level)
  | clsAttr
  | missing
deriving DecidableEq, Repr

/-- The value `to_level` actually returns in Python: a member, a raw int,
or — when `getattr(Level, str(lvl))` found a non-member class attribute —
that attribute object, returned unchecked (the function's
`Union[Level, int]` annotation notwithstanding). -/
inductive PyLevelResult
  | lvl (l : Level)
  | int (n : Int)
  | obj (s : String)
deriving DecidableEq, Repr

/-- Injection of the member-only result type into the full one. -/
def pyResultOfLoi : LevelOrInt → PyLevelResult
  | .lvl l => .lvl l
  | .int n => .int n

/-- `getattr(Level, str(lvl))` relative to an attribute oracle `attrs`
describing `Level`'s open-ended class-attribute surface.  For a `Level`
argument the branch is unreachable, and for an integer its decimal string
names no attribute of any class, so both raise `AttributeError`. -/
def pyGetattrFull (attrs : String → AttrResult) : Levelable → AttrResult
  | .str s => attrs s
  | .lvl _ => .missing
  | .int _ => .missing

/-- `to_level(lvl, int_ok)` over the full attribute surface: the same
try-chain as `to_level`, except that the `getattr` step is resolved by the
oracle `attrs` and a non-member class attribute is returned as-is
(`return getattr(Level, str(lvl))` performs no type check). -/
def to_levelFull (attrs : String → AttrResult) (lvl : Levelable)
    (intOk : Bool) : Except String PyLevelResult :=
  match levelCall lvl with
  | some l => .ok (.lvl l)
  | none =>
    match (pyInt lvl).bind Level.ofVal with
    | some l => .ok (.lvl l)
    | none =>
      match pyGetattrFull attrs lvl with
      | .member l => .ok (.lvl l)
      | .clsAttr => .ok (.obj (pyStr lvl))
      | .missing =>
        match (if intOk then pyInt lvl else none) with
        | some n => .ok (.int n)
        | none => .error (invalidLevelMsg lvl)

/-- The member-only attribute oracle: exactly the member names of
`Level.attr`, everything else missing. -/
def memberAttrs (s : String) : AttrResult :=
  match Level.attr s with
  | some l => .member l
  | none => .missing

/-- A concrete fragment of `Level`'s real attribute surface: the member
names, plus a few of the attributes every Python class (or `int` subclass)
exposes — `getattr(Level, "mro")` returns the metaclass method `mro`,
`getattr(Level, "__name__")` the string `"Level"`, and so on.  (`"name"` and
`"value"` are `DynamicClassAttribute` descriptors that DO raise
`AttributeError` on class access, so they stay missing.) -/
def levelAttrsSample (s : String) : AttrResult :=
  match Level.attr s with
  | some l => .member l
  | none =>
    if s = "mro" ∨ s = "__name__" ∨ s = "__doc__" ∨ s = "__members__"
        ∨ s = "__module__" ∨ s = "__qualname__" ∨ s = "bit_length"
        ∨ s = "conjugate" then .clsAttr
    else .missing

theorem Level.ofVal_val {n : Int} {l : Level} (h : Level.ofVal n = some l) :
    l.val = n := by
  unfold Level.ofVal at h
  repeat' split at h
  all_goals first
    | (simp only [Option.some.injEq] at h; subst h; simp_all [Level.val])
    | (simp at h)

theorem to_level_int (n : Int) : to_level (.int n) true = .ok (normInt n) := by
  unfold to_level normInt levelCall pyInt pyGetattr
  cases h : Level.ofVal n <;> simp [h, Option.bind]

theorem normInt_val (n : Int) : (normInt n).val = n := by
  unfold normInt
  cases h : Level.ofVal n with
  | none => simp [LevelOrInt.val]
  | some l => simpa [LevelOrInt.val] using Level.ofVal_val h

/-- A log event (`@dataclasses.dataclass class LogEvent`).  `time` is the
wall-clock stamp `time.time()`, passed into the model as the `now` argument of
the logging operations. -/
structure LogEvent where
  msg : String
  level : LevelOrInt
  time : Nat
  indent : Int
  frame_depth : Int
  tb : Bool
deriving DecidableEq, Repr

/-- A handler object.  `Handler.handle` implementations are side-effecting
collaborators (the spec treats their rendering as external); the model only
records, in order, which handler was invoked with which event. -/
inductive Handler
  | noHandler
  | streamWriter
deriving DecidableEq, Repr

/-- The `warnings.warn` calls the library makes, as trace tags. -/
inductive PyWarning
  | rootMustNotPropagate
  | thresholdNotLevel
  | noTracebackAvailable
deriving DecidableEq, Repr

/-- One `Logger` object's fields.  The two Python list attributes are
modelled as reference ids into the heaps of `World`, so list aliasing between
loggers is represented faithfully.  (`_id` / `ctxmgr` are omitted: equality
tokens and the indentation scope are not exercised by any claim.) -/
structure LoggerState where
  higher : Option Nat
  propagate : Bool
  enabled : Bool
  indent : Int
  threshold : LevelOrInt
  fmt : String
  historyRef : Nat
  handlersRef : Nat
deriving DecidableEq, Repr

/-- The state of all logger objects and list objects, plus the observable
side effects (handler invocations, warnings). -/
structure World where
  loggers : List LoggerState
  histories : List (List LogEvent)
  handlersHeap : List (List Handler)
  dispatches : List (Nat × Handler × LogEvent)
  warnings : List PyWarning
deriving DecidableEq, Repr

/-- The history list (`logger.list`) a reference id denotes. -/
def World.history (w : World) (r : Nat) : List LogEvent :=
  (w.histories.get? r).getD []

/-- The handler list `logger.handlers` of logger `i`. -/
def World.handlersOf (w : World) (i : Nat) : List Handler :=
  match w.loggers.get? i with
  | some lg => (w.handlersHeap.get? lg.handlersRef).getD []
  | none => []

/-- Replace logger `i`'s object state (Python attribute assignment). -/
def World.modifyLogger (w : World) (i : Nat) (f : LoggerState → LoggerState) :
    World :=
  { w with loggers := w.loggers.mapIdx (fun j lg => if j = i then f lg else lg) }

/-- `logger.handlers.append(h)` on logger `i`: mutates the shared list
object, hence every logger aliasing the same `handlersRef` sees the change. -/
def World.addHandler (w : World) (i : Nat) (h : Handler) : World :=
  match w.loggers.get? i with
  | none => w
  | some lg =>
    let newList := (w.handlersHeap.get? lg.handlersRef).getD [] ++ [h]
    { w with handlersHeap := w.handlersHeap.set lg.handlersRef newList }

/-- `DEFAULT_FORMAT`. -/
def DEFAULT_FORMAT : String := "[{lvl} {time} line: {line}] {indent}{msg}"

/-- `DEFAULT_THRESHOLD = Level.warning`. -/
def DEFAULT_THRESHOLD : LevelOrInt := .lvl .warning

/-- `Logger.is_enabled_for(lvl)`: normalizes `lvl` with `to_level(lvl, True)`;
if the stored threshold is not a `Level` instance, warns and replaces it in
place with `to_level(self.threshold, True)`; finally compares by integer
value.  Returns (result, updated logger object, whether it warned). -/
def isEnabledFor (lg : LoggerState) (lvl : Levelable) :
    Except String (Bool × LoggerState × Bool) :=
  match to_level lvl true with
  | .error e => .error e
  | .ok l =>
    match lg.threshold with
    | .lvl _ => .ok (decide (l.val ≥ lg.threshold.val), lg, false)
    | .int n =>
      match to_level (.int n) true with
      | .error e => .error e
      | .ok t => .ok (decide (l.val ≥ t.val), { lg with threshold := t }, true)

/-- `Logger._actually_log(lvl, msg, frame_depth, tb)`: builds the `LogEvent`
(level re-normalized with `to_level(lvl, True)`, time stamped with `now`,
indent copied from the logger), appends it to the logger's history list, then
invokes every attached handler in order (recorded in the dispatch trace), and
returns the event. -/
def actuallyLog (w : World) (i : Nat) (lg : LoggerState) (lvl : Levelable)
    (msg : String) (frameDepth : Int) (tb : Bool) (now : Nat) :
    Except String (World × LogEvent) :=
  match to_level lvl true with
  | .error e => .error e
  | .ok l =>
    let event : LogEvent :=
      { msg := msg, level := l, time := now, indent := lg.indent,
        frame_depth := frameDepth, tb := tb }
    let newHist := w.history lg.historyRef ++ [event]
    let w1 : World :=
      { w with histories := w.histories.set lg.historyRef newHist }
    let hs := (w1.handlersHeap.get? lg.handlersRef).getD []
    .ok ({ w1 with dispatches := w1.dispatches ++ hs.map (fun h => (i, h, event)) },
      event)

/-- `Logger._log(lvl, msg, traceback, frame_depth)`, the decision logic:
1. if not `enabled`, return `None`;
2. if `propagate`: a parentless (root) logger warns and returns `None`,
   otherwise the call delegates to `higher._log` with `frame_depth + 1`;
3. if `is_enabled_for(lvl)` fails, return `None`;
4. otherwise `_actually_log`.
`fuel` bounds the parent-chain recursion (Python recurses on the object
graph); every theorem that delegates supplies enough fuel explicitly. -/
def logStep : Nat → World → Nat → Levelable → String → Bool → Int → Nat →
    Except String (World × Option LogEvent)
  | 0, w, _, _, _, _, _, _ => .ok (w, none)
  | fuel + 1, w, i, lvl, msg, tb, fd, now =>
    match w.loggers.get? i with
    | none => .error "AttributeError: no such logger"
    | some lg =>
      if lg.enabled = false then .ok (w, none)
      else if lg.propagate = true then
        match lg.higher with
        | none =>
          .ok ({ w with warnings := w.warnings ++ [.rootMustNotPropagate] },
            none)
        | some p => logStep fuel w p lvl msg tb (fd + 1) now
      else
        match isEnabledFor lg lvl with
        | .error e => .error e
        | .ok (b, lg2, warned) =>
          let w2 : World :=
            { w with
              loggers := w.loggers.set i lg2,
              warnings :=
                if warned then w.warnings ++ [.thresholdNotLevel]
                else w.warnings }
          if b = false then .ok (w2, none)
          else
            match actuallyLog w2 i lg2 lvl msg fd tb now with
            | .error e => .error e
            | .ok (w3, e) => .ok (w3, some e)

/-- `Logger.debug(msg, traceback)`: `self._log(Level.debug, msg, traceback, 4)`. -/
def logDebug (fuel : Nat) (w : World) (i : Nat) (msg : String) (tb : Bool)
    (now : Nat) : Except String (World × Option LogEvent) :=
  logStep fuel w i (.lvl .debug) msg tb 4 now

/-- `Logger.info(msg, traceback)`. -/
def logInfo (fuel : Nat) (w : World) (i : Nat) (msg : String) (tb : Bool)
    (now : Nat) : Except String (World × Option LogEvent) :=
  logStep fuel w i (.lvl .info) msg tb 4 now

/-- `Logger.warning(msg, traceback)`. -/
def logWarning (fuel : Nat) (w : World) (i : Nat) (msg : String) (tb : Bool)
    (now : Nat) : Except String (World × Option LogEvent) :=
  logStep fuel w i (.lvl .warning) msg tb 4 now

/-- `Logger.error(msg, traceback)`. -/
def logError (fuel : Nat) (w : World) (i : Nat) (msg : String) (tb : Bool)
    (now : Nat) : Except String (World × Option LogEvent) :=
  logStep fuel w i (.lvl .error) msg tb 4 now

/-- `Logger.critical(msg, traceback)`. -/
def logCritical (fuel : Nat) (w : World) (i : Nat) (msg : String) (tb : Bool)
    (now : Nat) : Except String (World × Option LogEvent) :=
  logStep fuel w i (.lvl .critical) msg tb 4 now

/-- The logger object `Logger._inherit` produces for a child of parent `p`
(whose state is `plg`): `propagate = False`, a fresh empty `list` (the new
reference id `histLen`), `indent = 0`, `enabled = True`, and `format`,
`threshold`, `handlers` taken from the parent.  `self.handlers =
self.higher.handlers` aliases the parent's list object: same `handlersRef`. -/
def childOf (p : Nat) (plg : LoggerState) (histLen : Nat) : LoggerState :=
  { higher := some p
    propagate := false
    enabled := true
    indent := 0
    threshold := plg.threshold
    fmt := plg.fmt
    historyRef := histLen
    handlersRef := plg.handlersRef }

/-- `Logger.get_child()` = `type(self)(self)`: `__init__` with a parent sets
`self.higher` and runs `_inherit` (see `childOf`), allocating the fresh empty
history list in the heap; raises `AttributeError`-style failure (here:
`none`) when the parent does not exist. -/
def getChild (w : World) (p : Nat) : Option (World × Nat) :=
  match w.loggers.get? p with
  | none => none
  | some plg =>
    some ({ w with
        loggers := w.loggers ++ [childOf p plg w.histories.length],
        histories := w.histories ++ [[]] }, w.loggers.length)

/-- The root logger object as `Logger.__init__` builds it with
`higher = None`: no propagation, fresh empty history at ref 0,
`DEFAULT_FORMAT`, `DEFAULT_THRESHOLD`, enabled, and
`get_default_handlers() = [StreamWriterHandler(sys.stderr)]` at ref 0. -/
def rootLogger : LoggerState :=
  { higher := none
    propagate := false
    enabled := true
    indent := 0
    threshold := DEFAULT_THRESHOLD
    fmt := DEFAULT_FORMAT
    historyRef := 0
    handlersRef := 0 }

/-- The world right after module initialization (`root = Logger()`). -/
def rootWorld : World :=
  { loggers := [rootLogger]
    histories := [[]]
    handlersHeap := [[Handler.streamWriter]]
    dispatches := []
    warnings := [] }

/-- `ChangeThreshold.__init__`: `self.level = to_level(level, True)`. -/
def changeThresholdInit (level : Levelable) : Except String LevelOrInt :=
  to_level level true

/-- `ChangeThreshold.__enter__`: captures `logger.threshold`, overwrites it
with the normalized level, returns the old threshold. -/
def changeThresholdEnter (lg : LoggerState) (levelV : LevelOrInt) :
    LoggerState × LevelOrInt :=
  ({ lg with threshold := levelV }, lg.threshold)

/-- `ChangeThreshold.__exit__`: unconditionally writes the captured old
threshold back (Python's `with` runs `__exit__` on every exit path, normal or
exceptional). -/
def changeThresholdExit (lg : LoggerState) (oldLevel : LevelOrInt) :
    LoggerState :=
  { lg with threshold := oldLevel }

/-- `str.ljust(width)`: pad on the right with spaces to `width` (no-op when
already at least that long). -/
def pyLjust (s : String) (width : Nat) : String :=
  s ++ String.mk (List.replicate (width - s.length) ' ')

/-- `"  " * n` for the indentation prefix (a non-positive count yields the
empty string, as in Python). -/
def strRepeat (s : String) (n : Int) : String :=
  String.join (List.replicate n.toNat s)

/-- Modelled rendering of `termcolor.colored`: wraps the text in ANSI SGR
escape sequences for the given codes.  Terminal rendering is an external
collaborator; only the fact that the colorized path pads the label first is
load-bearing below. -/
def termcolorColored (s : String) (codes : List Nat) : String :=
  (codes.foldr (fun c acc => "\x1b[" ++ toString c ++ "m" ++ acc) s)
    ++ "\x1b[0m"

/-- `Logger._color(rv)`: only the five canonical upper-case labels are
colorized, each first left-justified to 8 characters; any other string is
returned unchanged (and unpadded). -/
def colorLabel (rv : String) : String :=
  if rv = "DEBUG" then termcolorColored (pyLjust "DEBUG" 8) [34]
  else if rv = "INFO" then termcolorColored (pyLjust "INFO" 8) [36]
  else if rv = "WARNING" then termcolorColored (pyLjust "WARNING" 8) [33]
  else if rv = "ERROR" then termcolorColored (pyLjust "ERROR" 8) [31]
  else if rv = "CRITICAL" then
    termcolorColored (pyLjust "CRITICAL" 8) [31, 43, 1, 4, 5]
  else rv

/-- `Logger.level_to_str(lvl)`: the upper-cased member name when
`to_level(lvl, False)` succeeds (unpadded!), otherwise `str(lvl).ljust(8)`;
then the (unreachable for canonical names) WARN/FATAL renames; colorization
only when `self.colors` is set. -/
def levelToStr (colors : Bool) (lvl : Levelable) : String :=
  let rv :=
    match to_level lvl false with
    | .ok (.lvl l) => pyUpper l.name
    | .ok (.int _) => pyLjust (pyStr lvl) 8
    | .error _ => pyLjust (pyStr lvl) 8
  let rv1 := if rv = "WARN" then "WARNING" else rv
  let rv2 := if rv1 = "FATAL" then "CRITICAL" else rv1
  if colors then colorLabel rv2 else rv2

/-- Reads the characters of a `\x7bkey\x7d` placeholder up to the closing
brace, returning the key and the rest of the template. -/
def splitAtClose : List Char → Option (String × List Char)
  | [] => none
  | c :: rest =>
    if c = '}' then some ("", rest)
    else (splitAtClose rest).map (fun p => (String.mk (c :: p.1.data), p.2))

/-- Core of Python `str.format` with keyword arguments, for the plain
`\x7bname\x7d` placeholders this library uses (no brace escaping and no
format specs appear in any of its templates).  An unknown key raises
`KeyError` (here: `none`), exactly as `str.format` does.  `fuel` dominates
the template length. -/
def pyFormatAux : Nat → List Char → List (String × String) →
    Option (List Char)
  | 0, _, _ => none
  | _ + 1, [], _ => some []
  | fuel + 1, c :: rest, kvs =>
    if c = '{' then
      match splitAtClose rest with
      | none => none
      | some (key, rest2) =>
        match kvs.lookup key with
        | none => none
        | some v => (pyFormatAux fuel rest2 kvs).map (fun t => v.data ++ t)
    else
      (pyFormatAux fuel rest kvs).map (fun t => c :: t)

/-- `fmt.format(**kvs)` (restricted as documented at `pyFormatAux`). -/
def pyFormat (fmt : String) (kvs : List (String × String)) : Option String :=
  (pyFormatAux (fmt.length + 1) fmt.data kvs).map String.mk

/-- The `MissingTracebackContext`-style warning condition inside
`format_msg`: `event.tb` and no active exception. -/
def formatMsgWarns (event : LogEvent) (excActive : Bool) : Bool :=
  event.tb && !excActive

/-- `Logger.format_msg(event)`:
`self.format.format(indent=.., lvl=.., time=.., line=.., msg=..) + _tb + "\n"`.
The wall-clock rendering `str(datetime.fromtimestamp(event.time))`, the stack
inspection `sys._getframe(..).f_lineno` and `traceback.format_exc()` read the
runtime environment and enter the model as the `timeStr`, `lineStr` and
`tbText` arguments.  A `KeyError` from an unknown template key is `none`. -/
def formatMsg (fmt : String) (colors : Bool) (selfIndent : Int)
    (event : LogEvent) (timeStr lineStr tbText : String) : Option String :=
  let indentStr := strRepeat "  " selfIndent
  let lvlStr := levelToStr colors (levelableOfLoi event.level)
  let tbStr := if event.tb then "\n" ++ tbText else ""
  let kvs := [("indent", indentStr), ("lvl", lvlStr), ("time", timeStr),
    ("line", lineStr), ("msg", event.msg)]
  (pyFormat fmt kvs).map (fun s => s ++ tbStr ++ "\n")

/-! ## Test fixtures (concrete worlds used by witnesses and counterexamples) -/

/-- The root world with the root logger disabled and `propagate` set, so that
the disabled short-circuit is exercised against an otherwise-propagating
configuration. -/
def disabledWorld : World :=
  rootWorld.modifyLogger 0
    (fun lg => { lg with enabled := false, propagate := true })

/-- The root world after `root.propagate = True`. -/
def rootPropWorld : World :=
  rootWorld.modifyLogger 0 (fun lg => { lg with propagate := true })

/-- The root world after `child = root.get_child(); child.propagate = True`:
the child is logger 1, enabled, with the inherited WARNING threshold. -/
def c1World : World :=
  ((getChild rootWorld 0).map (fun pr =>
    pr.1.modifyLogger 1 (fun lg => { lg with propagate := true }))).getD
    rootWorld

/-- The `LogEvent` of the C9 rendering example: level INFO, message "hi". -/
def infoHiEvent : LogEvent :=
  { msg := "hi", level := .lvl .info, time := 0, indent := 0,
    frame_depth := 0, tb := false }

/-! ## Helper lemmas -/

/-- `int(str)` honors PEP 515 grouping: `int("1_0") = 10`, while leading,
trailing or doubled underscores raise. -/
theorem pyIntOfString_underscores :
    pyIntOfString "1_0" = some 10 ∧ pyIntOfString "_10" = none
    ∧ pyIntOfString "10_" = none ∧ pyIntOfString "1__0" = none
    ∧ to_level (.str "1_0") false = .ok (.lvl .debug) :=
  ⟨rfl, rfl, rfl, rfl, rfl⟩

/-- On the member-only oracle the refined chain agrees with `to_level`
everywhere, so the Logger paths verified against `to_level` lose nothing. -/
theorem to_levelFull_member (lvl : Levelable) (intOk : Bool) :
    to_levelFull memberAttrs lvl intOk
      = (to_level lvl intOk).map pyResultOfLoi := by
  unfold to_levelFull to_level
  cases hc : levelCall lvl with
  | some l => simp [Except.map, pyResultOfLoi]
  | none =>
    cases hb : (pyInt lvl).bind Level.ofVal with
    | some l => simp [Except.map, pyResultOfLoi]
    | none =>
      have hg : pyGetattrFull memberAttrs lvl
          = (match pyGetattr lvl with
            | some l => AttrResult.member l
            | none => AttrResult.missing) := by
        cases lvl <;> simp [pyGetattrFull, memberAttrs, pyGetattr]
      rw [hg]
      cases hga : pyGetattr lvl with
      | some l => simp [Except.map, pyResultOfLoi]
      | none =>
        cases hI : intOk with
        | false => simp [Except.map]
        | true =>
          cases hp : pyInt lvl <;> simp [hp, Except.map, pyResultOfLoi]

theorem isEnabledFor_lvl {lg : LoggerState} {lvl : Levelable}
    {v : LevelOrInt} (h : to_level lvl true = .ok v) {t : Level}
    (ht : lg.threshold = .lvl t) :
    isEnabledFor lg lvl = .ok (decide (v.val ≥ t.val), lg, false) := by
  simp only [isEnabledFor, h, ht]
  rfl

theorem isEnabledFor_int {lg : LoggerState} {lvl : Levelable}
    {v : LevelOrInt} (h : to_level lvl true = .ok v) {n : Int}
    (ht : lg.threshold = .int n) :
    isEnabledFor lg lvl
      = .ok (decide (v.val ≥ n), { lg with threshold := normInt n }, true) := by
  simp only [isEnabledFor, h, ht, to_level_int]
  rw [normInt_val]

theorem logStep_disabled {w : World} {i : Nat} {lg : LoggerState}
    (hget : w.loggers.get? i = some lg) (hdis : lg.enabled = false)
    (fuel : Nat) (lvl : Levelable) (msg : String) (tb : Bool) (fd : Int)
    (now : Nat) :
    logStep (fuel + 1) w i lvl msg tb fd now = .ok (w, none) := by
  have hget' : w.loggers[i]? = some lg := by
    rw [← List.get?_eq_getElem?]
    exact hget
  simp [logStep, hget', hdis]

/-! ## The claims -/

/-- C1 (counterexample): in `c1World` the child logger (id 1) is enabled,
has `propagate = True`, has the root as parent, and the event level
CRITICAL satisfies its own WARNING threshold; yet after `child._log` the
child's own history (heap ref 1) is still empty — the event was only
forwarded (the root's history got exactly one event and the call returned
it).  This refutes the claim that recording and propagation are independent
and both fire: the code treats them as mutually exclusive. -/
theorem mylog_C1_cex :
    (logStep 2 c1World 1 (.lvl .critical) "m" false 3 0).map
        (fun pr => (pr.1.histories.get? 1,
          (pr.1.histories.get? 0).map List.length, pr.2.isSome))
      = .ok (some [], some 1, true) := rfl

/-- C1 (amended): for every enabled logger whose `propagate` flag is true
and which has a parent, `_log` delegates the whole call to the parent's
`_log` with `frame_depth + 1`, appending nothing to the logger's own history
and never consulting its own threshold: recording and propagation are
mutually exclusive, with propagation taking precedence. -/
theorem mylog_C1_propagate_delegates (fuel : Nat) (w : World) (i p : Nat)
    (lg : LoggerState) (hget : w.loggers.get? i = some lg)
    (hen : lg.enabled = true) (hprop : lg.propagate = true)
    (hhigher : lg.higher = some p) (lvl : Levelable) (msg : String)
    (tb : Bool) (fd : Int) (now : Nat) :
    logStep (fuel + 1) w i lvl msg tb fd now
      = logStep fuel w p lvl msg tb (fd + 1) now := by
  have hget' : w.loggers[i]? = some lg := by
    rw [← List.get?_eq_getElem?]
    exact hget
  simp [logStep, hget', hen, hprop, hhigher]

/-- C1 (witness for the amended theorem): the concrete child of `c1World`
delegates its CRITICAL log call to the root with `frame_depth` 3 + 1. -/
theorem mylog_C1_propagate_delegates_witness :
    logStep 2 c1World 1 (.lvl .critical) "m" false 3 0
      = logStep 1 c1World 0 (.lvl .critical) "m" false (3 + 1) 0 :=
  mylog_C1_propagate_delegates 1 c1World 1 0 _ rfl rfl rfl rfl
    (.lvl .critical) "m" false 3 0

/-- C2: a disabled logger's `_log` (and each leveled convenience method)
returns `None` with the world untouched: nothing is appended to any
history, no handler is dispatched, no warning is emitted and the parent is
never consulted — for every level argument (even a garbage one: the enabled
check precedes level normalization) and regardless of `propagate`. -/
theorem mylog_C2_disabled_short_circuit (fuel : Nat) (w : World) (i : Nat)
    (lg : LoggerState) (hget : w.loggers.get? i = some lg)
    (hdis : lg.enabled = false) (lvl : Levelable) (msg : String) (tb : Bool)
    (fd : Int) (now : Nat) :
    logStep (fuel + 1) w i lvl msg tb fd now = .ok (w, none)
    ∧ logDebug (fuel + 1) w i msg tb now = .ok (w, none)
    ∧ logInfo (fuel + 1) w i msg tb now = .ok (w, none)
    ∧ logWarning (fuel + 1) w i msg tb now = .ok (w, none)
    ∧ logError (fuel + 1) w i msg tb now = .ok (w, none)
    ∧ logCritical (fuel + 1) w i msg tb now = .ok (w, none) :=
  ⟨logStep_disabled hget hdis fuel lvl msg tb fd now,
    logStep_disabled hget hdis fuel (.lvl .debug) msg tb 4 now,
    logStep_disabled hget hdis fuel (.lvl .info) msg tb 4 now,
    logStep_disabled hget hdis fuel (.lvl .warning) msg tb 4 now,
    logStep_disabled hget hdis fuel (.lvl .error) msg tb 4 now,
    logStep_disabled hget hdis fuel (.lvl .critical) msg tb 4 now⟩

/-- C2 (witness): the concrete disabled-but-propagating root of
`disabledWorld` logs nothing, not even for an unnormalizable level string. -/
theorem mylog_C2_disabled_short_circuit_witness :
    logStep 1 disabledWorld 0 (.str "garbage") "m" false 3 0
      = .ok (disabledWorld, none)
    ∧ logCritical 1 disabledWorld 0 "m" false 0 = .ok (disabledWorld, none) :=
  ⟨(mylog_C2_disabled_short_circuit 0 disabledWorld 0 _ rfl rfl
      (.str "garbage") "m" false 3 0).1,
    (mylog_C2_disabled_short_circuit 0 disabledWorld 0 _ rfl rfl
      (.str "garbage") "m" false 3 0).2.2.2.2.2⟩

/-- C3: an enabled, parentless logger with `propagate = True` warns
(`Root logger should not propagate!`, a non-fatal `UserWarning`) and returns
`None`: the result is `.ok` (no hard error), no history changes, no handler
dispatch — only the warning is appended to the warning trace. -/
theorem mylog_C3_root_propagation_guard (fuel : Nat) (w : World) (i : Nat)
    (lg : LoggerState) (hget : w.loggers.get? i = some lg)
    (hen : lg.enabled = true) (hprop : lg.propagate = true)
    (hroot : lg.higher = none) (lvl : Levelable) (msg : String) (tb : Bool)
    (fd : Int) (now : Nat) :
    logStep (fuel + 1) w i lvl msg tb fd now
      = .ok ({ w with warnings := w.warnings ++ [.rootMustNotPropagate] },
          none) := by
  have hget' : w.loggers[i]? = some lg := by
    rw [← List.get?_eq_getElem?]
    exact hget
  simp [logStep, hget', hen, hprop, hroot]

/-- C3 (witness): the concrete root of `rootPropWorld` aborts a CRITICAL
log call with only the propagation warning emitted. -/
theorem mylog_C3_root_propagation_guard_witness :
    logStep 1 rootPropWorld 0 (.lvl .critical) "m" false 3 0
      = .ok ({ rootPropWorld with
          warnings := rootPropWorld.warnings ++ [.rootMustNotPropagate] },
          none) :=
  mylog_C3_root_propagation_guard 0 rootPropWorld 0 _ rfl rfl rfl rfl
    (.lvl .critical) "m" false 3 0

/-- C4: `is_enabled_for(L)` returns `normalize_or_int(L) >= threshold` under
integer ordering, for every logger state and every normalizable level; in
particular with the default WARNING (30) threshold the five levels are
enabled exactly when their value reaches 30 (DEBUG and INFO disabled;
WARNING, ERROR, CRITICAL enabled). -/
theorem mylog_C4_threshold_gating (lg : LoggerState) (lvl : Levelable)
    (v : LevelOrInt) (h : to_level lvl true = .ok v) :
    (∃ rest : LoggerState × Bool,
      isEnabledFor lg lvl = .ok (decide (v.val ≥ lg.threshold.val), rest))
    ∧ ∀ l : Level, (isEnabledFor rootLogger (.lvl l)).map (fun r => r.1)
        = .ok (decide (l.val ≥ 30)) := by
  constructor
  · cases ht : lg.threshold with
    | lvl t =>
      refine ⟨(lg, false), ?_⟩
      rw [isEnabledFor_lvl h ht]
      simp [ht, LevelOrInt.val]
    | int n =>
      refine ⟨({ lg with threshold := normInt n }, true), ?_⟩
      rw [isEnabledFor_int h ht]
      simp [ht, LevelOrInt.val]
  · intro l
    cases l <;> rfl

/-- C4 (witness): with the default WARNING threshold, INFO is reported
disabled by the concrete computation. -/
theorem mylog_C4_threshold_gating_witness :
    (∃ rest : LoggerState × Bool,
      isEnabledFor rootLogger (.lvl .info)
        = .ok (decide ((LevelOrInt.lvl .info).val ≥ 30), rest))
    ∧ ∀ l : Level, (isEnabledFor rootLogger (.lvl l)).map (fun r => r.1)
        = .ok (decide (l.val ≥ 30)) :=
  mylog_C4_threshold_gating rootLogger (.lvl .info) (.lvl .info) rfl

/-- C5 (counterexample): `get_child` on the root aliases the handler list
instead of copying it: after `child = root.get_child()` a mutation through
the parent (`root.handlers.append(NoHandler())`) is visible through the
child — both now see `[StreamWriterHandler, NoHandler]`.  This refutes the
part of the claim that says handlers are inherited as independent copies and
that only history may be shared: in the code it is exactly the other way
round. -/
theorem mylog_C5_cex :
    (getChild rootWorld 0).map (fun pr =>
        ((pr.1.addHandler 0 .noHandler).handlersOf 1,
          (pr.1.addHandler 0 .noHandler).handlersOf 0, pr.2))
      = some ([.streamWriter, .noHandler], [.streamWriter, .noHandler], 1) :=
  rfl

/-- C5 (amended): a child created under the default inheritance policy has
`propagate = false`, `indent = 0`, `enabled = true`, its parent recorded,
and a fresh empty history list shared with no pre-existing logger; its
`threshold` and `format` are inherited as values equal to the parent's at
creation time, while its `handlers` attribute is inherited as a shared
reference to the parent's very list object (not an independent copy).
History is never inherited as a shared reference. -/
theorem mylog_C5_inheritance (w : World) (p : Nat) (plg : LoggerState)
    (hp : w.loggers.get? p = some plg)
    (hwf : w.loggers.all
      (fun lg => decide (lg.historyRef < w.histories.length)) = true) :
    ∃ w2 clg, getChild w p = some (w2, w.loggers.length)
      ∧ w2.loggers.get? w.loggers.length = some clg
      ∧ clg.propagate = false ∧ clg.indent = 0 ∧ clg.enabled = true
      ∧ clg.higher = some p
      ∧ w2.histories.get? clg.historyRef = some []
      ∧ (∀ j lgj, w.loggers.get? j = some lgj →
          lgj.historyRef ≠ clg.historyRef)
      ∧ clg.threshold = plg.threshold
      ∧ clg.fmt = plg.fmt
      ∧ clg.handlersRef = plg.handlersRef := by
  refine ⟨{ w with
      loggers := w.loggers ++ [childOf p plg w.histories.length],
      histories := w.histories ++ [[]] },
    childOf p plg w.histories.length,
    ?_, ?_, rfl, rfl, rfl, rfl, ?_, ?_, rfl, rfl, rfl⟩
  · unfold getChild
    rw [hp]
  · show (w.loggers ++ [childOf p plg w.histories.length]).get?
      w.loggers.length = some _
    rw [List.get?_eq_getElem?]
    exact List.getElem?_concat_length _ _
  · show (w.histories ++ [[]]).get? (childOf p plg w.histories.length).historyRef
      = some []
    rw [List.get?_eq_getElem?]
    exact List.getElem?_concat_length _ _
  · intro j lgj hj hcontra
    have hmem : lgj ∈ w.loggers := List.get?_mem hj
    have := List.all_eq_true.mp hwf lgj hmem
    rw [hcontra] at this
    simp [childOf] at this

/-- C5 (witness): the concrete child of the root world. -/
theorem mylog_C5_inheritance_witness :
    ∃ w2 clg, getChild rootWorld 0 = some (w2, rootWorld.loggers.length)
      ∧ w2.loggers.get? rootWorld.loggers.length = some clg
      ∧ clg.propagate = false ∧ clg.indent = 0 ∧ clg.enabled = true
      ∧ clg.higher = some 0
      ∧ w2.histories.get? clg.historyRef = some []
      ∧ (∀ j lgj, rootWorld.loggers.get? j = some lgj →
          lgj.historyRef ≠ clg.historyRef)
      ∧ clg.threshold = rootLogger.threshold
      ∧ clg.fmt = rootLogger.fmt
      ∧ clg.handlersRef = rootLogger.handlersRef :=
  mylog_C5_inheritance rootWorld 0 rootLogger rfl rfl

/-- C6 (counterexample): the upper-case spelling `"DEBUG"` does not
normalize: `to_level("DEBUG")` raises `ValueError` (member-name lookup via
`getattr` is case sensitive), refuting the case-insensitive part of the
claim. -/
theorem mylog_C6_cex :
    to_level (.str "DEBUG") false = .error (invalidLevelMsg (.str "DEBUG")) :=
  rfl

/-- C6 (amended): for every level L, normalizing L itself, L's integer
value, and L's exact (lower-case) member name all yield the same `Level`,
and the alias names `"warn"` and `"fatal"` normalize to `warning` and
`critical`; but name matching is case sensitive, not case insensitive. -/
theorem mylog_C6_round_trip :
    ∀ l : Level,
      to_level (.lvl l) false = .ok (.lvl l)
      ∧ to_level (.int l.val) false = .ok (.lvl l)
      ∧ to_level (.str l.name) false = .ok (.lvl l)
      ∧ to_level (.str "warn") false = .ok (.lvl .warning)
      ∧ to_level (.str "fatal") false = .ok (.lvl .critical) := by
  intro l
  cases l <;> exact ⟨rfl, rfl, rfl, rfl, rfl⟩

/-- C7 (counterexample): the string `"mro"` matches no known level name or
value — it is none of the seven member names and converts to no member value
— yet neither variant of `to_level` raises: `getattr(Level, "mro")` finds
the metaclass method `mro`, and `to_level` returns that non-Level object
unchecked.  The same happens for `"__name__"` (which yields the string
`"Level"`).  This refutes the universal raise-on-no-match claim. -/
theorem mylog_C7_cex :
    Level.attr "mro" = none ∧ knownLevelMatch (.str "mro") = false
    ∧ to_levelFull levelAttrsSample (.str "mro") false = .ok (.obj "mro")
    ∧ to_levelFull levelAttrsSample (.str "mro") true = .ok (.obj "mro")
    ∧ to_levelFull levelAttrsSample (.str "__name__") false
        = .ok (.obj "__name__") :=
  ⟨rfl, rfl, rfl, rfl, rfl⟩

/-- C7 (amended): for every input x matching no known level — not a member,
not convertible by `int()` (PEP 515 grouping honored) to a member's value —
and whose `getattr(Level, str(x))` lookup genuinely raises `AttributeError`
(i.e. `str(x)` names no class attribute of `Level`, member or otherwise):
`to_level(x, False)` raises the `ValueError` naming the original input (via
its `repr`), and `to_level(x, True)` instead returns the integer conversion
`int(x)` when that conversion succeeds, raising the same error only when it
does not.  (When `str(x)` names a non-member class attribute, both variants
return that object without raising — see the counterexample.) -/
theorem mylog_C7_invalid_input (attrs : String → AttrResult) (x : Levelable)
    (hmatch : knownLevelMatch x = false)
    (hattr : pyGetattrFull attrs x = .missing) :
    to_levelFull attrs x false = .error (invalidLevelMsg x)
    ∧ to_levelFull attrs x true = (match pyInt x with
        | some n => Except.ok (PyLevelResult.int n)
        | none => Except.error (invalidLevelMsg x)) := by
  have hc : levelCall x = none := by
    cases hcc : levelCall x with
    | none => rfl
    | some l =>
      unfold knownLevelMatch at hmatch
      rw [hcc] at hmatch
      simp at hmatch
  have hb : (pyInt x).bind Level.ofVal = none := by
    cases hbb : (pyInt x).bind Level.ofVal with
    | none => rfl
    | some l =>
      unfold knownLevelMatch at hmatch
      rw [hbb] at hmatch
      simp at hmatch
  constructor
  · unfold to_levelFull
    rw [hc, hb, hattr]
    simp
  · unfold to_levelFull
    rw [hc, hb, hattr]
    cases hp : pyInt x <;> simp [hp]

/-- C7 (witness): under the concrete sampled attribute surface, the
non-level integer 35 (whose decimal string names no attribute) and the
PEP 515 string `"3_5"` (`int("3_5") = 35`, not a member value, not an
attribute) — strict normalization raises the error naming the original
input, the int-permitting variant returns the integer conversion. -/
theorem mylog_C7_invalid_input_witness :
    (to_levelFull levelAttrsSample (.int 35) false
        = .error "Invalid level: 35. Must be a Level, int, or str."
      ∧ to_levelFull levelAttrsSample (.int 35) true = .ok (.int 35))
    ∧ (to_levelFull levelAttrsSample (.str "3_5") false
        = .error (invalidLevelMsg (.str "3_5"))
      ∧ to_levelFull levelAttrsSample (.str "3_5") true = .ok (.int 35)) :=
  ⟨⟨(mylog_C7_invalid_input levelAttrsSample (.int 35) rfl rfl).1,
      (mylog_C7_invalid_input levelAttrsSample (.int 35) rfl rfl).2⟩,
    ⟨(mylog_C7_invalid_input levelAttrsSample (.str "3_5") rfl rfl).1,
      (mylog_C7_invalid_input levelAttrsSample (.str "3_5") rfl rfl).2⟩⟩

/-- C8: entering `ChangeThreshold` stores the normalized supplied level
(`to_level(level, True)`, raw-int fallback) into `threshold` and yields the
previous threshold; `__exit__` writes the captured value back regardless of
the state the scope body (an arbitrary transformation, covering both normal
and exceptional exits and any further threshold mutation) left the logger
in, so afterwards the threshold equals the pre-entry value exactly. -/
theorem mylog_C8_scoped_threshold (lg : LoggerState) (level : Levelable)
    (v : LevelOrInt) (_h : changeThresholdInit level = .ok v)
    (body : LoggerState → LoggerState) :
    (changeThresholdEnter lg v).2 = lg.threshold
    ∧ ((changeThresholdEnter lg v).1).threshold = v
    ∧ (changeThresholdExit (body (changeThresholdEnter lg v).1)
        (changeThresholdEnter lg v).2).threshold = lg.threshold :=
  ⟨rfl, rfl, rfl⟩

/-- C8 (witness): the root logger, a raw-int override 15, and a body that
both re-mutates the threshold and disables the logger. -/
theorem mylog_C8_scoped_threshold_witness :
    (changeThresholdEnter rootLogger (.int 15)).2 = rootLogger.threshold
    ∧ ((changeThresholdEnter rootLogger (.int 15)).1).threshold = .int 15
    ∧ (changeThresholdExit
        ((fun l => { l with threshold := .lvl .critical, enabled := false })
          (changeThresholdEnter rootLogger (.int 15)).1)
        (changeThresholdEnter rootLogger (.int 15)).2).threshold
      = rootLogger.threshold :=
  mylog_C8_scoped_threshold rootLogger (.int 15) (.int 15) rfl
    (fun l => { l with threshold := .lvl .critical, enabled := false })

/-- C9 (counterexample): with colors disabled, rendering the INFO/"hi" event
under the claim's template raises `KeyError` (the code supplies the keys
`indent`, `lvl`, `time`, `line`, `msg` — not `level` / `message`), so it
does not produce `"INFO    : hi"` (nor any string). -/
theorem mylog_C9_cex :
    formatMsg "{level}: {message}" false 0 infoHiEvent "T" "L" "" = none :=
  rfl

/-- C9 (amended): with colors disabled, the code's own template keys are
`lvl` and `msg`, and `"\x7blvl\x7d: \x7bmsg\x7d"` renders the event as
`"INFO: hi"` plus the trailing newline `format_msg` always appends: the
level label is upper-cased but NOT padded to 8 characters (`ljust(8)` is
applied only on the colorized path and on the fallback path for
unnormalizable levels). -/
theorem mylog_C9_render :
    formatMsg "{lvl}: {msg}" false 0 infoHiEvent "T" "L" "" = some "INFO: hi\n"
    ∧ levelToStr false (.lvl .info) = "INFO"
    ∧ levelToStr false (.int 35) = pyLjust "35" 8 :=
  ⟨rfl, rfl, rfl⟩

/-- C10: `is_enabled_for` normalizes a non-`Level` threshold in place —
when the stored threshold is a raw int `n` it becomes `to_level(n, True)`
and the `UserWarning` flag is reported — while a threshold that is already a
`Level` leaves the logger object completely unchanged and warns nothing. -/
theorem mylog_C10_threshold_frame (lg : LoggerState) (lvl : Levelable)
    (v : LevelOrInt) (h : to_level lvl true = .ok v) :
    (∀ t, lg.threshold = .lvl t →
      isEnabledFor lg lvl = .ok (decide (v.val ≥ t.val), lg, false))
    ∧ (∀ n, lg.threshold = .int n →
      to_level (.int n) true = .ok (normInt n)
      ∧ isEnabledFor lg lvl
        = .ok (decide (v.val ≥ n), { lg with threshold := normInt n },
            true)) := by
  constructor
  · intro t ht
    exact isEnabledFor_lvl h ht
  · intro n hn
    exact ⟨to_level_int n, isEnabledFor_int h hn⟩

/-- C10 (witness): a raw-int threshold 35 is rewritten in place (with the
warning flag set) while the root's `Level` threshold stays untouched. -/
theorem mylog_C10_threshold_frame_witness :
    isEnabledFor rootLogger (.lvl .info)
        = .ok (decide ((LevelOrInt.lvl .info).val ≥ Level.warning.val),
            rootLogger, false)
    ∧ isEnabledFor { rootLogger with threshold := .int 35 } (.lvl .error)
        = .ok (decide ((LevelOrInt.lvl .error).val ≥ 35),
            { rootLogger with threshold := normInt 35 }, true) :=
  ⟨(mylog_C10_threshold_frame rootLogger (.lvl .info) (.lvl .info) rfl).1
      .warning rfl,
    ((mylog_C10_threshold_frame { rootLogger with threshold := .int 35 }
        (.lvl .error) (.lvl .error) rfl).2 35 rfl).2⟩

end Mylog
